import Mathlib

/-!
Shallow embedding of the gform_backend repository (src/gform_v2.py and
src/app.py), together with theorems settling the frozen claims about its
natural-language specification.

The browser DOM is modelled by the structures `Item` and `Page` below,
observed exactly through the CSS/XPath selectors the code uses; the chat
model is an uninterpreted function from prompt to raw reply text; `json.loads`
is modelled by the executable parser `jsonLoads` on the JSON fragment the
program exchanges with the model.
-/

/-- JSON values as produced by Python `json.loads` on the fragment this
program exchanges with the language model: null, booleans, integers,
strings, arrays and objects (no floats or \u escapes, which the exchanged
payloads do not use). -/
inductive Json where
  | null : Json
  | bool (b : Bool) : Json
  | num (n : Int) : Json
  | str (s : String) : Json
  | arr (xs : List Json) : Json
  | obj (fields : List (String × Json)) : Json
deriving Repr

/-- Python truthiness (`if not ans:`) on the JSON values above. -/
def Json.pyTruthy : Json → Bool
  | .null => false
  | .bool b => b
  | .num n => n != 0
  | .str s => !s.isEmpty
  | .arr xs => !xs.isEmpty
  | .obj fs => !fs.isEmpty

/-- A single-quote character, kept out of string literals. -/
def sqMark : String := String.singleton (Char.ofNat 39)

/-- The opening-brace character. -/
def lbrace : Char := Char.ofNat 123

/-- The closing-brace character. -/
def rbrace : Char := Char.ofNat 125

/-- Python `str.strip` whitespace set. -/
def pyIsSpace (c : Char) : Bool :=
  c == ' ' || c == '\t' || c == '\n' || c == '\r' ||
    c == Char.ofNat 11 || c == Char.ofNat 12

/-- Python `s.strip()`. -/
def pyStrip (s : String) : String :=
  ((s.toList.dropWhile pyIsSpace).reverse.dropWhile pyIsSpace).reverse.asString

/-- ASCII lowercasing of one character (the labels involved are ASCII). -/
def pyLowerChar (c : Char) : Char :=
  if 'A' ≤ c && c ≤ 'Z' then Char.ofNat (c.toNat + 32) else c

/-- Python `s.lower()` on ASCII text. -/
def pyLower (s : String) : String :=
  (s.toList.map pyLowerChar).asString

/-- Splits on every comma, keeping empty pieces, as Python `s.split(",")`. -/
def splitCommaChars : List Char → List Char → List String
  | acc, [] => [acc.reverse.asString]
  | acc, c :: cs =>
    if c == ',' then acc.reverse.asString :: splitCommaChars [] cs
    else splitCommaChars (c :: acc) cs

/-- Python `s.split(",")`. -/
def pySplitComma (s : String) : List String := splitCommaChars [] s.toList

mutual
/-- Python `repr` on the JSON values above (string escaping elided: the
labels involved contain no quotes). -/
def Json.pyRepr : Json → String
  | .null => "None"
  | .bool true => "True"
  | .bool false => "False"
  | .num n => toString n
  | .str s => sqMark ++ s ++ sqMark
  | .arr xs => "[" ++ Json.pyReprList xs ++ "]"
  | .obj fs => String.singleton lbrace ++ Json.pyReprFields fs ++ String.singleton rbrace

/-- Comma-separated `repr` of array elements. -/
def Json.pyReprList : List Json → String
  | [] => ""
  | [x] => Json.pyRepr x
  | x :: y :: xs => Json.pyRepr x ++ ", " ++ Json.pyReprList (y :: xs)

/-- Comma-separated `repr` of object fields. -/
def Json.pyReprFields : List (String × Json) → String
  | [] => ""
  | [(k, v)] => sqMark ++ k ++ sqMark ++ ": " ++ Json.pyRepr v
  | (k, v) :: f :: fs =>
      sqMark ++ k ++ sqMark ++ ": " ++ Json.pyRepr v ++ ", " ++ Json.pyReprFields (f :: fs)
end

/-- Python `str(ans)` on the JSON values above. -/
def Json.pyStr : Json → String
  | .str s => s
  | j => j.pyRepr

/-- Whether the first list starts with the second. -/
def leadsWith : List Char → List Char → Bool
  | _, [] => true
  | [], _ :: _ => false
  | a :: as, b :: bs => a == b && leadsWith as bs

/-- Whether `needle` occurs as a contiguous run inside `hay`. -/
def hasSub : List Char → List Char → Bool
  | [], needle => needle.isEmpty
  | a :: t, needle => leadsWith (a :: t) needle || hasSub t needle

/-- Python `needle in hay` on strings. -/
def pyIn (needle hay : String) : Bool := hasSub hay.toList needle.toList

/-- Python `s.find(c)`: index of the first occurrence, `-1` when absent. -/
def pyFindChar (s : String) (c : Char) : Int :=
  match s.toList.findIdx? (· == c) with
  | some i => (i : Int)
  | none => -1

/-- Python `s.rfind(c)`: index of the last occurrence, `-1` when absent. -/
def pyRFindChar (s : String) (c : Char) : Int :=
  match s.toList.reverse.findIdx? (· == c) with
  | some i => (s.toList.length : Int) - 1 - (i : Int)
  | none => -1

/-- Python `s[a:b]` for in-range bounds. -/
def pySlice (s : String) (a b : Nat) : String :=
  ((s.toList.take b).drop a).asString

/-- The content-normalisation step of `get_ai_answers_batch`: the raw chat
reply is stripped; when it contains a markdown fence, the substring from
the first opening brace to the last closing brace is kept; the result is
stripped again. -/
def stripModelContent (raw : String) : String :=
  let content := pyStrip raw
  let content :=
    if pyIn "```" content then
      let start := pyFindChar content lbrace
      let stop := pyRFindChar content rbrace + 1
      if start != -1 && stop > start then pySlice content start.toNat stop.toNat
      else content
    else content
  pyStrip content

/-- Python-dict single-key assignment on an insertion-ordered association
list: replace in place when the key exists, append otherwise. -/
def pyDictSet (d : List (String × Json)) (k : String) (v : Json) :
    List (String × Json) :=
  if d.any (fun p => p.1 == k) then
    d.map (fun p => if p.1 == k then (k, v) else p)
  else d ++ [(k, v)]

/-- Python `dict.update`: merge the second dict into the first. -/
def pyDictUpdate (d new : List (String × Json)) : List (String × Json) :=
  new.foldl (fun d p => pyDictSet d p.1 p.2) d

/-- JSON whitespace. -/
def isWs (c : Char) : Bool := c == ' ' || c == '\n' || c == '\t' || c == '\r'

/-- Drops leading JSON whitespace. -/
def skipWs : List Char → List Char
  | [] => []
  | c :: cs => if isWs c then skipWs cs else c :: cs

/-- Parses the body of a JSON string literal (after the opening quote),
handling the simple escapes; returns the string and the rest. -/
def parseStrChars : Nat → List Char → List Char → Option (String × List Char)
  | 0, _, _ => none
  | _ + 1, _, [] => none
  | fuel + 1, acc, c :: cs =>
    if c == '"' then some (String.mk acc.reverse, cs)
    else if c == '\\' then
      match cs with
      | [] => none
      | e :: cs2 =>
        let dec : Option Char :=
          if e == '"' then some '"'
          else if e == '\\' then some '\\'
          else if e == '/' then some '/'
          else if e == 'n' then some '\n'
          else if e == 't' then some '\t'
          else if e == 'r' then some '\r'
          else if e == 'b' then some (Char.ofNat 8)
          else if e == 'f' then some (Char.ofNat 12)
          else none
        match dec with
        | some d => parseStrChars fuel (d :: acc) cs2
        | none => none
    else parseStrChars fuel (c :: acc) cs

/-- Parses a run of decimal digits. -/
def parseDigits (cs : List Char) : Option (Nat × List Char) :=
  let ds := cs.takeWhile (·.isDigit)
  if ds.isEmpty then none
  else some (ds.foldl (fun a c => a * 10 + (c.toNat - 48)) 0, cs.drop ds.length)

mutual
/-- Parses one JSON value from the front of the input. -/
def parseVal : Nat → List Char → Option (Json × List Char)
  | 0, _ => none
  | fuel + 1, cs0 =>
    let cs := skipWs cs0
    match cs with
    | [] => none
    | c :: rest =>
      if c == '"' then
        match parseStrChars (rest.length + 1) [] rest with
        | some (s, r) => some (.str s, r)
        | none => none
      else if c == lbrace then
        match skipWs rest with
        | c2 :: r2 =>
          if c2 == rbrace then some (.obj [], r2)
          else parseObjRest fuel [] (c2 :: r2)
        | [] => none
      else if c == '[' then
        match skipWs rest with
        | ']' :: r2 => some (.arr [], r2)
        | cs2 => parseArrRest fuel [] cs2
      else if c == '-' then
        match parseDigits rest with
        | some (n, r) => some (.num (-(n : Int)), r)
        | none => none
      else if c.isDigit then
        match parseDigits cs with
        | some (n, r) => some (.num (n : Int), r)
        | none => none
      else if leadsWith cs "true".toList then some (.bool true, cs.drop 4)
      else if leadsWith cs "false".toList then some (.bool false, cs.drop 5)
      else if leadsWith cs "null".toList then some (.null, cs.drop 4)
      else none

/-- Parses the members of a JSON object, the input standing at a key. -/
def parseObjRest : Nat → List (String × Json) → List Char →
    Option (Json × List Char)
  | 0, _, _ => none
  | fuel + 1, acc, cs =>
    match skipWs cs with
    | '"' :: r =>
      match parseStrChars (r.length + 1) [] r with
      | some (k, r2) =>
        match skipWs r2 with
        | ':' :: r3 =>
          match parseVal fuel r3 with
          | some (v, r4) =>
            let acc2 := pyDictSet acc k v
            match skipWs r4 with
            | ',' :: r5 => parseObjRest fuel acc2 r5
            | c :: r5 => if c == rbrace then some (.obj acc2, r5) else none
            | [] => none
          | none => none
        | _ => none
      | none => none
    | _ => none

/-- Parses the elements of a JSON array, the input standing at a value. -/
def parseArrRest : Nat → List Json → List Char → Option (Json × List Char)
  | 0, _, _ => none
  | fuel + 1, acc, cs =>
    match parseVal fuel cs with
    | some (v, r) =>
      match skipWs r with
      | ',' :: r2 => parseArrRest fuel (v :: acc) r2
      | ']' :: r2 => some (.arr (v :: acc).reverse, r2)
      | _ => none
    | none => none
end

/-- Models Python `json.loads` on the JSON fragment above: `some` is a
successful parse of the whole input, `none` is a raised decode error. -/
def jsonLoads (s : String) : Option Json :=
  let cs := s.toList
  match parseVal (cs.length + 2) cs with
  | some (v, rest) => if (skipWs rest).isEmpty then some v else none
  | none => none

/-- One `[role="checkbox"]` element: its aria-label (none when the
attribute is absent) and whether aria-checked is "true". -/
structure CheckboxEl where
  label : Option String
  checked : Bool
deriving Repr, DecidableEq

/-- One `[role="listitem"]` DOM item of a rendered form page, observed
through exactly the selectors gform_v2.py queries. -/
structure Item where
  /-- text of the `[role="heading"]` child; none when the lookup raises -/
  heading : Option String
  /-- an `input[type="text"]` element is present -/
  hasTextInput : Bool
  /-- a `textarea` element is present -/
  hasTextarea : Bool
  /-- aria-labels of the `[role="radio"]` elements, in DOM order -/
  radios : List (Option String)
  /-- the `[role="checkbox"]` elements, in DOM order -/
  checkboxes : List CheckboxEl
  /-- how many `.Od2TWd` (linear-scale number) elements are present -/
  numbersCount : Nat
  /-- a required-asterisk element is present -/
  hasAsterisk : Bool
  /-- aria-labels of the `div` elements, for the scale XPath lookup -/
  scaleDivLabels : List String
deriving Repr, DecidableEq

/-- An extracted question descriptor: exactly the five fields the
dictionary built by extract_questions carries. -/
structure Question where
  id : Nat
  text : String
  type : String
  options : List (Option String)
  required : Bool
deriving Repr, DecidableEq

/-- The input-type inference of extract_questions: later checks override
earlier ones, and five or more scale numbers win over everything. -/
def questionTypeOf (item : Item) : String :=
  let t := "text"
  let t := if item.hasTextInput then "short_text" else t
  let t := if item.hasTextarea then "long_text" else t
  let t := if !item.radios.isEmpty then "mcq" else t
  let t := if !item.checkboxes.isEmpty then "checkbox" else t
  if item.numbersCount >= 5 then "scale_1_5" else t

/-- The option_labels accumulation of extract_questions: the radio labels,
overwritten by the checkbox labels when checkbox elements exist. -/
def optionLabelsOf (item : Item) : List (Option String) :=
  if !item.checkboxes.isEmpty then item.checkboxes.map CheckboxEl.label
  else if !item.radios.isEmpty then item.radios
  else []

/-- One iteration of the extract_questions loop: items without a readable
heading are skipped (the bare except / continue). -/
def extractOne (qid : Nat) (item : Item) : Option Question :=
  match item.heading with
  | none => none
  | some raw =>
    let qtext := pyStrip raw
    some { id := qid,
           text := qtext,
           type := questionTypeOf item,
           options := optionLabelsOf item,
           required := pyIn "*" qtext || item.hasAsterisk }

/-- The enumerate(items, 1) walk of extract_questions. -/
def extractFrom : Nat → List Item → List Question
  | _, [] => []
  | qid, item :: rest =>
    match extractOne qid item with
    | some q => q :: extractFrom (qid + 1) rest
    | none => extractFrom (qid + 1) rest

/-- GoogleFormAutomation.extract_questions on one rendered page. -/
def extract_questions (items : List Item) : List Question :=
  extractFrom 1 items

/-- Python `repr` of the options list, as interpolated into the prompt. -/
def pyReprOptions (xs : List (Option String)) : String :=
  let pieces := xs.map (fun o => match o with
    | some s => sqMark ++ s ++ sqMark
    | none => "None")
  "[" ++ String.intercalate ", " pieces ++ "]"

/-- One line of the qstring built by get_ai_answers_batch. -/
def qLine (q : Question) : String :=
  let reqMarker := if q.required then " [REQUIRED]" else ""
  toString q.id ++ ". " ++ q.text ++ reqMarker ++ " (type: " ++ q.type ++
    ", options: " ++ pyReprOptions q.options ++ ")\n"

/-- The qstring accumulation loop of get_ai_answers_batch. -/
def buildQString (qs : List Question) : String :=
  qs.foldl (fun acc q => acc ++ qLine q) ""

/-- The strict prompt up to the interpolated seed. -/
def promptPartA : String :=
  "\n        \n\nYou are filling out a Google Form. Return ONLY a JSON object with question IDs as keys and answers as values.\n\nYou are simulating a realistic Indian respondent (age 18–25). \nNames MUST be realistically Indian but **not overly common**.  \nYou MUST NOT reuse names such as “Anjali Sharma”, “Rahul Kumar”, or similar stereotypical pairs.  \nUse names from diverse Indian regions (North, South, East, West) and vary caste/community patterns.\n\nCRITICAL RULES:\nRANDOMNESS SEED: "

/-- The strict prompt between the seed and the interpolated qstring. -/
def promptPartB : String :=
  "\n        Use the seed to randomize gender and name selection.\n        If the seed ends in an EVEN digit → choose MALE.\n        If the seed ends in an ODD digit → choose FEMALE.\n1. For MCQ: Choose EXACTLY ONE option from the provided list.\n2. For checkbox: Choose one or more options, comma-separated.\n3. For scale_1_5: Choose a number from 1–5.\n4. For short_text/long_text: Provide realistic, concise answers suitable for a psychology survey.\n5. REQUIRED fields MUST be answered.\n6. If any question asks for **Name**, **Full Name**, or anything equivalent:\n   - Generate a unique, realistic Indian name.\n   - Avoid all of these common names: \n     [\"Anjali Sharma\", \"Anjali Singh\", \"Rahul Sharma\", \"Rahul Kumar\", \"Neha Singh\", \"Amit Kumar\"].\n   - Use a different name each time this API is called.\n7. If any question asks “Do you agree to participate in this survey?”, ALWAYS answer \"YES\".\n8. Return ONLY a clean JSON object. No markdown, no commentary, no code blocks.\n\nQuestions:\n"

/-- The strict prompt after the interpolated qstring. -/
def promptPartC : String :=
  "\n\nReturn format example:\n\x7b\"1\": \"answer1\", \"2\": \"answer2\"\x7d\n\nYour JSON response:\n"

/-- The strict_prompt f-string of get_ai_answers_batch, with the random
seed of the run and the question list interpolated. -/
def strictPrompt (seed : Nat) (qs : List Question) : String :=
  promptPartA ++ toString seed ++ promptPartB ++ buildQString qs ++ promptPartC

/-- Result of get_ai_answers_batch: the prompts sent to the chat API (in
order) and the value returned or the exception raised. -/
structure AiCallResult where
  calls : List String
  result : Except String Json

/-- GoogleFormAutomation.get_ai_answers_batch: builds one strict prompt
over the whole question list, makes a single chat-completion call
(`respond` stands for the external chat model, prompt ↦ raw message content),
strips markdown fencing, and parses the content as JSON, re-raising the
decode error on failure. -/
def get_ai_answers_batch (respond : String → String) (seed : Nat)
    (qs : List Question) : AiCallResult :=
  let prompt := strictPrompt seed qs
  let content := stripModelContent (respond prompt)
  match jsonLoads content with
  | some parsed => { calls := [prompt], result := .ok parsed }
  | none => { calls := [prompt], result := .error ("invalid JSON: " ++ content) }

/-- Observable browser interactions performed by fill_page, tagged with
the question id of the item acted on. -/
inductive FillAction where
  | skipRequired (qid : Nat)
  | typeText (qid : Nat) (text : String)
  | failText (qid : Nat)
  | clickRadio (qid : Nat) (idx : Nat) (label : String) (exact : Bool)
  | noRadioMatch (qid : Nat)
  | clickCheckbox (qid : Nat) (idx : Nat) (label : String)
  | clickScale (qid : Nat) (value : String)
  | failScale (qid : Nat)
deriving Repr, DecidableEq

/-- The first radio (index and aria-label) whose truthy label satisfies
the given match condition, scanning in DOM order. -/
def findRadioMatch (cond : String → Bool) : Nat → List (Option String) →
    Option (Nat × String)
  | _, [] => none
  | i, none :: rest => findRadioMatch cond (i + 1) rest
  | i, some label :: rest =>
    if !label.isEmpty && cond label then some (i, label)
    else findRadioMatch cond (i + 1) rest

/-- The exact-match radio scan of fill_page: `label.lower().strip()`
equals the lowered-and-stripped answer. -/
def findExactRadio (opts : List (Option String)) (ansLower : String) :
    Option (Nat × String) :=
  findRadioMatch (fun l => pyStrip (pyLower l) == ansLower) 0 opts

/-- The fallback radio scan of fill_page: the lowered-and-stripped answer
occurs inside `label.lower()`. -/
def findSubRadio (opts : List (Option String)) (ansLower : String) :
    Option (Nat × String) :=
  findRadioMatch (fun l => pyIn ansLower (pyLower l)) 0 opts

/-- The comma-split, stripped and lowered checkbox choices of fill_page. -/
def chosenOf (ansStr : String) : List String :=
  (pySplitComma ansStr).map (fun x => pyLower (pyStrip x))

/-- The checkbox-selection test of fill_page: some chosen piece equals the
lowered label, occurs inside it, or contains it. -/
def checkboxMatch (chosen : List String) (labelLower : String) : Bool :=
  chosen.any (fun c => c == labelLower || pyIn c labelLower || pyIn labelLower c)

/-- The checkbox loop of fill_page: walks the checkbox elements in DOM
order and clicks each matching one that is not already checked; elements
with a falsy label are skipped. -/
def checkboxActions (qid : Nat) (chosen : List String) : Nat →
    List CheckboxEl → List FillAction
  | _, [] => []
  | i, cb :: rest =>
    let tail := checkboxActions qid chosen (i + 1) rest
    match cb.label with
    | none => tail
    | some label =>
      if label.isEmpty then tail
      else if checkboxMatch chosen (pyStrip (pyLower label)) && !cb.checked then
        .clickCheckbox qid i label :: tail
      else tail

/-- The per-type body of the fill_page loop for one question, after the
required-and-empty skip check, acting on the located item. -/
def fillOne (item : Item) (q : Question) (ans : Json) : List FillAction :=
  if q.type == "short_text" || q.type == "long_text" then
    if item.hasTextInput || item.hasTextarea then [.typeText q.id ans.pyStr]
    else [.failText q.id]
  else if q.type == "mcq" then
    let ansLower := pyStrip (pyLower ans.pyStr)
    match findExactRadio item.radios ansLower with
    | some (i, label) => [.clickRadio q.id i label true]
    | none =>
      match findSubRadio item.radios ansLower with
      | some (i, label) => [.clickRadio q.id i label false]
      | none => [.noRadioMatch q.id]
  else if q.type == "checkbox" then
    checkboxActions q.id (chosenOf ans.pyStr) 0 item.checkboxes
  else if q.type == "scale_1_5" then
    let v := pyStrip ans.pyStr
    if item.scaleDivLabels.any (· == v) then [.clickScale q.id v]
    else [.failScale q.id]
  else []

/-- Python `answers.get(str(q["id"]), "")`. -/
def pyAnsOf (answers : List (String × Json)) (qid : Nat) : Json :=
  (answers.lookup (toString qid)).getD (Json.str "")

/-- One iteration of the fill_page loop: look the answer up, skip a
required question whose answer is falsy, then locate the item as
items[id - 1] (an out-of-range id is the raised IndexError). -/
def fillQuestion (items : List Item) (answers : List (String × Json))
    (q : Question) : Except String (List FillAction) :=
  let ans := pyAnsOf answers q.id
  if !ans.pyTruthy && q.required then .ok [.skipRequired q.id]
  else
    match items.get? (q.id - 1) with
    | none => .error "list index out of range"
    | some item => .ok (fillOne item q ans)

/-- GoogleFormAutomation.fill_page over the whole question list. -/
def fill_page (items : List Item) (questions : List Question)
    (answers : List (String × Json)) : Except String (List FillAction) :=
  questions.foldl (fun acc q => do
    let acts ← acc
    let more ← fillQuestion items answers q
    pure (acts ++ more)) (.ok [])

/-- GoogleFormAutomation.check_validation_errors: true iff some alert
element carries nonempty text. -/
def check_validation_errors (alerts : List String) : Bool :=
  !(alerts.filter (fun t => !t.isEmpty)).isEmpty

/-- Outcome of the guarded Next attempt of fill_form: the whole block —
find the button, click it, wait for staleness of a listitem — sits in a
try with a bare except, so a missing button, a failing click and a wait
that times out are all caught and the code falls through to the Submit
attempt of the same iteration. The staleness element is looked up after
the click, so a click that already navigated can grab an element of the
new page, whose wait then times out even though the browser moved on. -/
inductive NextResult where
  /-- find_element raises: no Next button on this page -/
  | absent
  /-- the click and the staleness wait succeed: the loop advances -/
  | advanced
  /-- the click or the wait raises with the browser still on this page:
  fall through to the Submit attempt on this page -/
  | failedStay
  /-- the click navigated but the wait raced or timed out: fall through
  to the Submit attempt on the newly rendered page -/
  | failedMoved
deriving Repr, DecidableEq

/-- One rendered page of the form as the fill_form loop observes it. -/
structure Page where
  /-- the `[role="listitem"]` elements -/
  items : List Item
  /-- texts of the `[role="alert"]` / error-message elements -/
  alerts : List String
  /-- what the guarded Next attempt does on this page -/
  next : NextResult
  /-- a clickable Submit span is present -/
  hasSubmit : Bool
  /-- clicking Submit changes the URL (or lands on formResponse) -/
  submitChangesUrl : Bool

/-- The steps of one fill_form page iteration, in execution order. -/
inductive Ev where
  | extract (page : Nat)
  | synthesize (page : Nat)
  | fillPage (page : Nat)
  | checkValidation (page : Nat)
  | clickNext (page : Nat)
  | clickSubmit (page : Nat)
deriving Repr, DecidableEq

/-- Outcome of one fill_form run: the ordered step trace, the final
collected_answers dict, whether a Submit click changed the URL, and the
returned first_page_answers or the exception that escaped. -/
structure RunResult where
  trace : List Ev
  collected : List (String × Json)
  submitted : Bool
  result : Except String (List (String × Json))

/-- The guarded Submit attempt that ends every iteration that did not
advance: when the page the browser currently renders (`view`; none models
an empty DOM) has a clickable Submit span, it is clicked and the loop
breaks whether or not the URL then changes; when the wait for it raises,
the handler saves a screenshot and breaks too. Either way fill_form goes
on to return first_page_answers. `pre` is the trace of the iteration so
far. -/
def submitBreak (pre : List Ev) (pageNum : Nat) (view : Option Page)
    (collected firstP : List (String × Json)) : RunResult :=
  match view with
  | some p =>
    if p.hasSubmit then
      { trace := pre ++ [.clickSubmit pageNum], collected := collected,
        submitted := p.submitChangesUrl, result := .ok firstP }
    else
      { trace := pre, collected := collected, submitted := false,
        result := .ok firstP }
  | none =>
    { trace := pre, collected := collected, submitted := false,
      result := .ok firstP }

/-- The while-True page loop of GoogleFormAutomation.fill_form.

`responds k` is the raw chat reply on the single API call of page k;
walking into the tail of `pages` models the browser rendering the next
page after a successful Next click; an empty remainder models the
explicit wait for a `[role="listitem"]` timing out (a raised
TimeoutException). The Next attempt sits in a bare except: only a click
whose staleness wait also succeeds advances the loop; when the button is
absent the iteration goes straight to the Submit attempt, and when the
click or wait fails the iteration falls through to the Submit attempt
after having clicked Next — against this same page when the browser did
not move, against the next rendered page when it did (a page that is then
never extracted or filled). A non-object parse makes
collected_answers.update raise. -/
def fillFormLoop (responds : Nat → String → String) (seed : Nat) :
    List Page → Nat → List (String × Json) → List (String × Json) → RunResult
  | [], _, collected, _ =>
    { trace := [], collected := collected, submitted := false,
      result := .error "timeout waiting for listitem" }
  | page :: rest, pageNum, collected, firstP =>
    let questions := extract_questions page.items
    match (get_ai_answers_batch (responds pageNum) seed questions).result with
    | .error e =>
      { trace := [.extract pageNum, .synthesize pageNum], collected := collected,
        submitted := false, result := .error e }
    | .ok parsed =>
      match parsed with
      | .obj answers =>
        let collected2 := pyDictUpdate collected answers
        let firstP2 := if pageNum == 1 then answers else firstP
        match fill_page page.items questions answers with
        | .error e =>
          { trace := [.extract pageNum, .synthesize pageNum, .fillPage pageNum],
            collected := collected2, submitted := false, result := .error e }
        | .ok _ =>
          match page.next with
          | .advanced =>
            let r := fillFormLoop responds seed rest (pageNum + 1) collected2 firstP2
            { r with trace := [.extract pageNum, .synthesize pageNum,
                               .fillPage pageNum, .checkValidation pageNum,
                               .clickNext pageNum] ++ r.trace }
          | .absent =>
            submitBreak [.extract pageNum, .synthesize pageNum,
                         .fillPage pageNum, .checkValidation pageNum]
              pageNum (some page) collected2 firstP2
          | .failedStay =>
            submitBreak [.extract pageNum, .synthesize pageNum,
                         .fillPage pageNum, .checkValidation pageNum,
                         .clickNext pageNum]
              pageNum (some page) collected2 firstP2
          | .failedMoved =>
            submitBreak [.extract pageNum, .synthesize pageNum,
                         .fillPage pageNum, .checkValidation pageNum,
                         .clickNext pageNum]
              pageNum rest.head? collected2 firstP2
      | _ =>
        { trace := [.extract pageNum, .synthesize pageNum], collected := collected,
          submitted := false,
          result := .error "dictionary update sequence error" }

/-- GoogleFormAutomation.fill_form: sets up a fresh driver and walks the
pages from page 1 with empty collected_answers and first_page_answers. -/
def fill_form (responds : Nat → String → String) (seed : Nat)
    (pages : List Page) : RunResult :=
  fillFormLoop responds seed pages 1 [] []

/-- Checks the step order claim C1 states: page by page in increasing
order and starting at page k, the sequence extract → synthesize → fill →
check-validation followed by a single advance-or-submit click — a run may
end after synthesize (a model or parse error), after fill (a fill error),
after check-validation (no button found), with a final Submit click, or
right after a Next click (a timeout), but a Next click of an iteration is
never followed by a Submit click of the same iteration. -/
def orderedTrace : Nat → List Ev → Bool
  | _, [] => true
  | k, .extract a :: .synthesize b :: rest =>
    a == k && b == k &&
    (match rest with
     | [] => true
     | .fillPage c :: rest2 =>
       c == k &&
       (match rest2 with
        | [] => true
        | .checkValidation d :: rest3 =>
          d == k &&
          (match rest3 with
           | [] => true
           | [.clickSubmit e] => e == k
           | .clickNext e :: rest4 => e == k && orderedTrace (k + 1) rest4
           | _ => false)
        | _ => false)
     | _ => false)
  | _, _ => false

/-- Checks a trace against the faithful control flow: as orderedTrace,
except that a Next click whose guarded wait failed may also be followed
directly by the fall-through Submit click of the same iteration, which
ends the run. -/
def orderedTraceFall : Nat → List Ev → Bool
  | _, [] => true
  | k, .extract a :: .synthesize b :: rest =>
    a == k && b == k &&
    (match rest with
     | [] => true
     | .fillPage c :: rest2 =>
       c == k &&
       (match rest2 with
        | [] => true
        | .checkValidation d :: rest3 =>
          d == k &&
          (match rest3 with
           | [] => true
           | [.clickSubmit e] => e == k
           | .clickNext e :: rest4 =>
             e == k &&
             ((match rest4 with
               | [.clickSubmit f] => f == k
               | _ => false) ||
              orderedTraceFall (k + 1) rest4)
           | _ => false)
        | _ => false)
     | _ => false)
  | _, _ => false

/-- Outcome of one bot.fill_form() call as app.py sees it: the returned
answers dict or the message of the caught exception. -/
def RunOutcome := Except String (List (String × Json))

/-- One element of the results list of a batch job: the per-run dict with keys
run / status / answers or run / status / error. -/
inductive RunEntry where
  | success (run : Nat) (answers : List (String × Json))
  | error (run : Nat) (msg : String)
deriving Repr

/-- The entry appended for run index i (0-based): run number i + 1 and
the outcome of that run. -/
def entryFor (o : RunOutcome) (i : Nat) : RunEntry :=
  match o with
  | .ok a => .success (i + 1) a
  | .error e => .error (i + 1) e

/-- The in-memory batch job record of app.py (the dict stored in
batch_jobs, with exactly its eight keys). -/
structure BatchJob where
  job_id : String
  form_url : String
  total_runs : Nat
  completed_runs : Nat
  successful_submissions : Nat
  failed_submissions : Nat
  status : String
  results : List RunEntry
deriving Repr

/-- The job record as fill_google_form_batch initialises it. -/
def initJob (job_id form_url : String) (runs : Nat) : BatchJob :=
  { job_id := job_id, form_url := form_url, total_runs := runs,
    completed_runs := 0, successful_submissions := 0, failed_submissions := 0,
    status := "running", results := [] }

/-- One iteration of the run_batch_job loop at run index i: sets
completed_runs to i + 1, bumps the success or failure counter, appends
the entry of that run. -/
def runStep (o : RunOutcome) (i : Nat) (job : BatchJob) : BatchJob :=
  match o with
  | .ok answers =>
    { job with completed_runs := i + 1,
               successful_submissions := job.successful_submissions + 1,
               results := job.results ++ [.success (i + 1) answers] }
  | .error e =>
    { job with completed_runs := i + 1,
               failed_submissions := job.failed_submissions + 1,
               results := job.results ++ [.error (i + 1) e] }

/-- The run_batch_job for-loop over the given run indices. -/
def runSeq (outcome : Nat → RunOutcome) : List Nat → BatchJob → BatchJob
  | [], job => job
  | i :: rest, job => runSeq outcome rest (runStep (outcome i) i job)

/-- run_batch_job: runs the loop over range(runs), each iteration
constructing a fresh GoogleFormAutomation and calling fill_form
(`outcome i` is the result of that call), then marks the record completed. -/
def run_batch_job (outcome : Nat → RunOutcome) (runs : Nat)
    (job : BatchJob) : BatchJob :=
  let job := runSeq outcome (List.range runs) job
  { job with status := "completed" }

/-- The outcome of run i of a batch: a complete fill_form execution from
a fresh automation instance (empty collected_answers, empty
first_page_answers, a fresh browser walk of the form from page 1), with
the chat replies and the seed belonging to run i. -/
def batchOutcome (responds : Nat → Nat → String → String) (seeds : Nat → Nat)
    (pages : List Page) (i : Nat) : RunOutcome :=
  (fill_form (responds i) (seeds i) pages).result

/-- The in-memory batch_jobs map. -/
def Jobs := String → Option BatchJob

/-- An HTTPException raised by an endpoint. -/
structure HTTPErr where
  code : Nat
  detail : String
deriving Repr, DecidableEq

/-- The body returned by POST /fill-form/batch. -/
structure BatchStartResp where
  status : String
  job_id : String
  message : String
  check_status_url : String
deriving Repr, DecidableEq

/-- POST /fill-form/batch: validates the url and the run count, stores a
fresh job record under the generated uuid `job_id`, and schedules
run_batch_job as a background task; the returned map is the shared state
as it stands when the response is sent, before the background task runs. -/
def fill_google_form_batch (form_url : String) (runs : Int) (job_id : String)
    (jobs : Jobs) : Except HTTPErr (BatchStartResp × Jobs) :=
  if form_url == "" then .error ⟨400, "Form URL is required"⟩
  else if runs ≤ 0 || runs > 50 then
    .error ⟨400, "runs must be between 1 and 50"⟩
  else
    let job := initJob job_id form_url runs.toNat
    let jobs2 : Jobs := fun id => if id == job_id then some job else jobs id
    .ok (⟨"started", job_id,
          "Batch job started with " ++ toString runs ++ " runs",
          "/batch-status/" ++ job_id⟩, jobs2)

/-- GET /batch-status/job_id: the stored record, or 404 when the id is
not a key of batch_jobs. -/
def get_batch_status (jobs : Jobs) (job_id : String) :
    Except HTTPErr BatchJob :=
  match jobs job_id with
  | none => .error ⟨404, "Job not found"⟩
  | some job => .ok job

/-- The body returned by POST /fill-form/batch-sync. -/
structure BatchSyncResp where
  status : String
  total_runs : Nat
  successful_submissions : Nat
  failed_submissions : Nat
  results : List RunEntry
deriving Repr

/-- The inline loop of fill_google_form_batch_sync, accumulating the
results list and the success and failure counters. -/
def syncLoop (outcome : Nat → RunOutcome) : List Nat →
    List RunEntry × Nat × Nat → List RunEntry × Nat × Nat
  | [], acc => acc
  | i :: rest, (results, succ, fails) =>
    match outcome i with
    | .ok a => syncLoop outcome rest (results ++ [.success (i + 1) a], succ + 1, fails)
    | .error e => syncLoop outcome rest (results ++ [.error (i + 1) e], succ, fails + 1)

/-- POST /fill-form/batch-sync: the same validation as the async variant,
then the whole loop inline before responding. -/
def fill_google_form_batch_sync (form_url : String) (runs : Int)
    (outcome : Nat → RunOutcome) : Except HTTPErr BatchSyncResp :=
  if form_url == "" then .error ⟨400, "Form URL is required"⟩
  else if runs ≤ 0 || runs > 50 then
    .error ⟨400, "runs must be between 1 and 50"⟩
  else
    let acc := syncLoop outcome (List.range runs.toNat) ([], 0, 0)
    .ok { status := "completed", total_runs := runs.toNat,
          successful_submissions := acc.2.1, failed_submissions := acc.2.2,
          results := acc.1 }

/-- The body returned by POST /fill-form/. -/
structure FormResp where
  status : String
  message : String
  answers : List (String × Json)
deriving Repr

/-- POST /fill-form/: 400 only for a missing form_url; otherwise the
automation runs inside try/except and any exception becomes a normal
response body with status error and empty answers. -/
def fill_google_form (form_url : String) (run : RunOutcome) :
    Except HTTPErr FormResp :=
  if form_url == "" then .error ⟨400, "Form URL is required"⟩
  else
    match run with
    | .ok answers =>
      .ok { status := "success",
            message := "Form filled and submitted successfully",
            answers := answers }
    | .error e => .ok { status := "error", message := e, answers := [] }

/-- A linear-scale item as Google Forms renders one: five radio points
labelled 1 to 5 and five scale-number elements. -/
def scaleItem : Item :=
  { heading := some "Rate your experience *", hasTextInput := false,
    hasTextarea := false,
    radios := [some "1", some "2", some "3", some "4", some "5"],
    checkboxes := [], numbersCount := 5, hasAsterisk := false,
    scaleDivLabels := ["1", "2", "3", "4", "5"] }

/-- A plain short-text item with the given heading. -/
def textItem (h : String) : Item :=
  { heading := some h, hasTextInput := true, hasTextarea := false,
    radios := [], checkboxes := [], numbersCount := 0, hasAsterisk := false,
    scaleDivLabels := [] }

/-- A two-radio multiple-choice item. -/
def mcqItem : Item :=
  { heading := some "Favourite colour", hasTextInput := false,
    hasTextarea := false, radios := [some "Red", some "Blue"],
    checkboxes := [], numbersCount := 0, hasAsterisk := false,
    scaleDivLabels := [] }

/-- A two-page form: one text question on page 1, two on page 2. -/
def wPages : List Page :=
  [ { items := [textItem "Name"], alerts := [], next := .advanced,
      hasSubmit := false, submitChangesUrl := false },
    { items := [textItem "City", textItem "Hobby"], alerts := [],
      next := .absent, hasSubmit := true, submitChangesUrl := true } ]

/-- Canned chat replies for the two-page form. -/
def wResp (k : Nat) : String → String :=
  fun _ =>
    if k == 1 then "\x7b\"1\": \"Asha\"\x7d"
    else "\x7b\"1\": \"Delhi\", \"2\": \"X\"\x7d"

/-- A two-page form whose first Next click navigates while its staleness
wait grabs the freshly rendered listitem and times out, so the iteration
falls through to the Submit attempt on the final page. -/
def racePages : List Page :=
  [ { items := [textItem "Name"], alerts := [], next := .failedMoved,
      hasSubmit := false, submitChangesUrl := false },
    { items := [textItem "Feedback"], alerts := [], next := .absent,
      hasSubmit := true, submitChangesUrl := true } ]

/-- C6: an accepted batch request creates a job under the freshly
generated identifier, initialised to status running with zero completed
runs; querying /batch-status with that identifier returns the record, and
querying an identifier that was never created fails with 404. -/
theorem spec_C6 (url : String) (runs : Int) (job_id : String) (jobs : Jobs)
    (hurl : url ≠ "") (h1 : 0 < runs) (h2 : runs ≤ 50) :
    ∃ resp jobs2,
      fill_google_form_batch url runs job_id jobs = .ok (resp, jobs2) ∧
      resp.job_id = job_id ∧
      jobs2 job_id = some (initJob job_id url runs.toNat) ∧
      (initJob job_id url runs.toNat).status = "running" ∧
      (initJob job_id url runs.toNat).completed_runs = 0 ∧
      get_batch_status jobs2 job_id = .ok (initJob job_id url runs.toNat) ∧
      ∀ other, other ≠ job_id → jobs other = none →
        get_batch_status jobs2 other = .error ⟨404, "Job not found"⟩ := by
  have hb : (decide (runs ≤ 0) || decide (runs > 50)) = false := by
    simp only [Bool.or_eq_false_iff, decide_eq_false_iff_not]
    omega
  have hok : fill_google_form_batch url runs job_id jobs =
      .ok (⟨"started", job_id,
            "Batch job started with " ++ toString runs ++ " runs",
            "/batch-status/" ++ job_id⟩,
           fun id => if id = job_id then some (initJob job_id url runs.toNat)
                     else jobs id) := by
    simp [fill_google_form_batch, hurl, hb]
  refine ⟨_, _, hok, rfl, ?_, rfl, rfl, ?_, ?_⟩
  · simp
  · simp [get_batch_status]
  · intro other hne hnone
    simp [get_batch_status, hne, hnone]

/-- Witness for C6 at a concrete request. -/
theorem spec_C6_witness :
    ∃ resp jobs2,
      fill_google_form_batch "https://f" 2 "job-1" (fun _ => none) =
        .ok (resp, jobs2) ∧
      resp.job_id = "job-1" ∧
      jobs2 "job-1" = some (initJob "job-1" "https://f" (2 : Int).toNat) ∧
      (initJob "job-1" "https://f" (2 : Int).toNat).status = "running" ∧
      (initJob "job-1" "https://f" (2 : Int).toNat).completed_runs = 0 ∧
      get_batch_status jobs2 "job-1" =
        .ok (initJob "job-1" "https://f" (2 : Int).toNat) ∧
      ∀ other, other ≠ "job-1" → (fun _ => none : Jobs) other = none →
        get_batch_status jobs2 other = .error ⟨404, "Job not found"⟩ :=
  spec_C6 "https://f" 2 "job-1" (fun _ => none) (by decide) (by decide) (by decide)

/-- C8: both batch endpoints reject a run count outside 1..50 with a 400
before creating any job or starting any run (the error return carries no
updated job map and no results), and accept any count inside 1..50. -/
theorem spec_C8 (url : String) (runs : Int) (job_id : String) (jobs : Jobs)
    (outcome : Nat → RunOutcome) :
    ((runs ≤ 0 ∨ 50 < runs) →
      (∃ d, fill_google_form_batch url runs job_id jobs = .error ⟨400, d⟩) ∧
      (∃ d, fill_google_form_batch_sync url runs outcome = .error ⟨400, d⟩)) ∧
    (url ≠ "" → 0 < runs → runs ≤ 50 →
      (∃ x, fill_google_form_batch url runs job_id jobs = .ok x) ∧
      (∃ y, fill_google_form_batch_sync url runs outcome = .ok y)) := by
  constructor
  · intro hbad
    have hb : (decide (runs ≤ 0) || decide (runs > 50)) = true := by
      rcases hbad with h | h <;> simp [h]
    by_cases hurl : url = ""
    · exact ⟨⟨"Form URL is required", by simp [fill_google_form_batch, hurl]⟩,
             ⟨"Form URL is required", by simp [fill_google_form_batch_sync, hurl]⟩⟩
    · exact ⟨⟨"runs must be between 1 and 50",
              by simp [fill_google_form_batch, hurl, hb]⟩,
             ⟨"runs must be between 1 and 50",
              by simp [fill_google_form_batch_sync, hurl, hb]⟩⟩
  · intro hurl h1 h2
    have hb : (decide (runs ≤ 0) || decide (runs > 50)) = false := by
      simp only [Bool.or_eq_false_iff, decide_eq_false_iff_not]
      omega
    refine ⟨⟨(⟨"started", job_id,
              "Batch job started with " ++ toString runs ++ " runs",
              "/batch-status/" ++ job_id⟩,
             fun id => if id = job_id then some (initJob job_id url runs.toNat)
                       else jobs id), ?_⟩,
            ⟨{ status := "completed", total_runs := runs.toNat,
               successful_submissions :=
                 (syncLoop outcome (List.range runs.toNat) ([], 0, 0)).2.1,
               failed_submissions :=
                 (syncLoop outcome (List.range runs.toNat) ([], 0, 0)).2.2,
               results :=
                 (syncLoop outcome (List.range runs.toNat) ([], 0, 0)).1 }, ?_⟩⟩
    · simp [fill_google_form_batch, hurl, hb]
    · simp [fill_google_form_batch_sync, hurl, hb]

/-- Witness for C8: runs = 0 is rejected by both endpoints and runs = 2
is accepted by both. -/
theorem spec_C8_witness :
    ((∃ d, fill_google_form_batch "https://f" 0 "j" (fun _ => none) =
        .error ⟨400, d⟩) ∧
     (∃ d, fill_google_form_batch_sync "https://f" 0 (fun _ => .error "x") =
        .error ⟨400, d⟩)) ∧
    ((∃ x, fill_google_form_batch "https://f" 2 "j" (fun _ => none) = .ok x) ∧
     (∃ y, fill_google_form_batch_sync "https://f" 2 (fun _ => .error "x") =
        .ok y)) :=
  ⟨(spec_C8 "https://f" 0 "j" (fun _ => none) (fun _ => .error "x")).1
     (Or.inl (by decide)),
   (spec_C8 "https://f" 2 "j" (fun _ => none) (fun _ => .error "x")).2
     (by decide) (by decide) (by decide)⟩

/-- C9: for POST /fill-form/, every exception escaping the automation
becomes a normal body with status error, the exception message and empty
answers; a successful run becomes the success body; the endpoint raises
an HTTP error only for a missing form_url. -/
theorem spec_C9 (responds : Nat → String → String) (seed : Nat)
    (pages : List Page) (url : String) :
    (url ≠ "" →
      (∀ e, (fill_form responds seed pages).result = .error e →
        fill_google_form url (fill_form responds seed pages).result =
          .ok { status := "error", message := e, answers := [] }) ∧
      (∀ a, (fill_form responds seed pages).result = .ok a →
        fill_google_form url (fill_form responds seed pages).result =
          .ok { status := "success",
                message := "Form filled and submitted successfully",
                answers := a }) ∧
      ∃ resp, fill_google_form url (fill_form responds seed pages).result =
        .ok resp) ∧
    (∀ run, fill_google_form "" run = .error ⟨400, "Form URL is required"⟩) := by
  constructor
  · intro hurl
    refine ⟨?_, ?_, ?_⟩
    · intro e he
      simp [fill_google_form, hurl, he]
    · intro a ha
      simp [fill_google_form, hurl, ha]
    · cases h : (fill_form responds seed pages).result with
      | error e =>
        exact ⟨{ status := "error", message := e, answers := [] },
               by simp [fill_google_form, hurl, h]⟩
      | ok a =>
        exact ⟨{ status := "success",
                 message := "Form filled and submitted successfully",
                 answers := a },
               by simp [fill_google_form, hurl, h]⟩
  · intro run
    simp [fill_google_form]

/-- Witness for C9: a form whose page never renders raises a timeout,
which the endpoint converts into an error body. -/
theorem spec_C9_witness :
    fill_google_form "https://f" (fill_form wResp 3 []).result =
      .ok { status := "error", message := "timeout waiting for listitem",
            answers := [] } :=
  ((spec_C9 wResp 3 [] "https://f").1 (by decide)).1
    "timeout waiting for listitem" rfl

/-- Auxiliary: the run_batch_job loop appends exactly one entry per
processed run index, in order. -/
theorem runSeq_results (outcome : Nat → RunOutcome) (l : List Nat) :
    ∀ job : BatchJob, (runSeq outcome l job).results =
      job.results ++ l.map (fun i => entryFor (outcome i) i) := by
  induction l with
  | nil => intro job; simp [runSeq]
  | cons i rest ih =>
    intro job
    cases h : outcome i <;>
      simp [runSeq, runStep, entryFor, h, ih]

/-- Auxiliary: the run_batch_job loop never touches the identity fields
of the job record. -/
theorem runSeq_fields (outcome : Nat → RunOutcome) (l : List Nat) :
    ∀ job : BatchJob, (runSeq outcome l job).total_runs = job.total_runs ∧
      (runSeq outcome l job).job_id = job.job_id ∧
      (runSeq outcome l job).form_url = job.form_url ∧
      (runSeq outcome l job).status = job.status := by
  induction l with
  | nil => intro job; simp [runSeq]
  | cons i rest ih =>
    intro job
    cases h : outcome i <;> simp [runSeq, runStep, h, ih]

/-- Auxiliary: processing run indices k, k+1, …, k+m-1 from a record whose
counters all stand at k leaves all counters at k + m. -/
theorem runSeq_counts (outcome : Nat → RunOutcome) (m : Nat) :
    ∀ (k : Nat) (job : BatchJob),
    job.completed_runs = k →
    job.successful_submissions + job.failed_submissions = k →
    job.results.length = k →
    (runSeq outcome (List.range' k m) job).completed_runs = k + m ∧
    (runSeq outcome (List.range' k m) job).successful_submissions +
      (runSeq outcome (List.range' k m) job).failed_submissions = k + m ∧
    (runSeq outcome (List.range' k m) job).results.length = k + m := by
  induction m with
  | zero =>
    intro k job h1 h2 h3
    simp [List.range', runSeq, h1, h2, h3]
  | succ n ih =>
    intro k job h1 h2 h3
    have hr : List.range' k (n + 1) = k :: List.range' (k + 1) n := rfl
    rw [hr]
    simp only [runSeq]
    have hstep :
        (runStep (outcome k) k job).completed_runs = k + 1 ∧
        (runStep (outcome k) k job).successful_submissions +
          (runStep (outcome k) k job).failed_submissions = k + 1 ∧
        (runStep (outcome k) k job).results.length = k + 1 := by
      cases h : outcome k <;> simp [runStep, h, h2, h3] <;> omega
    obtain ⟨a, b, c⟩ := ih (k + 1) _ hstep.1 hstep.2.1 hstep.2.2
    refine ⟨?_, ?_, ?_⟩ <;> omega

/-- C2: a batch job of N runs executes the fill-and-submit automation
exactly N times sequentially — run k is a complete fill_form execution of
a freshly constructed GoogleFormAutomation (fresh browser walk, empty
per-run state, the replies and seed belonging to run k) — and appends exactly one
success or error entry per run into the shared status record of the job. -/
theorem spec_C2 (responds : Nat → Nat → String → String) (seeds : Nat → Nat)
    (pages : List Page) (job_id url : String) (runs : Nat) :
    (run_batch_job (batchOutcome responds seeds pages) runs
        (initJob job_id url runs)).results.length = runs ∧
    ∀ k, k < runs →
      (run_batch_job (batchOutcome responds seeds pages) runs
          (initJob job_id url runs)).results.get? k =
        some (entryFor (fill_form (responds k) (seeds k) pages).result k) := by
  have hres : (run_batch_job (batchOutcome responds seeds pages) runs
      (initJob job_id url runs)).results =
      (List.range runs).map
        (fun i => entryFor (batchOutcome responds seeds pages i) i) := by
    simp [run_batch_job, runSeq_results, initJob]
  constructor
  · simp [hres]
  · intro k hk
    rw [hres, List.get?_eq_getElem?, List.getElem?_map, List.getElem?_range hk]
    rfl

/-- Witness for C2 at a one-run batch over the two-page fixture form. -/
theorem spec_C2_witness :
    (run_batch_job (batchOutcome (fun _ => wResp) (fun _ => 3) wPages) 1
        (initJob "job-1" "https://f" 1)).results.get? 0 =
      some (entryFor (fill_form (wResp) 3 wPages).result 0) :=
  (spec_C2 (fun _ => wResp) (fun _ => 3) wPages "job-1" "https://f" 1).2 0
    (by decide)

/-- C7: after each of the first m runs of a batch job the record satisfies
successes + failures = completed_runs = number of result entries and
completed_runs ≤ total_runs; when the loop over all runs has ended the
status of the record is "completed" with completed_runs = total_runs. -/
theorem spec_C7 (outcome : Nat → RunOutcome) (runs : Nat)
    (job_id url : String) (m : Nat) (hm : m ≤ runs) :
    (runSeq outcome (List.range m) (initJob job_id url runs)).successful_submissions +
      (runSeq outcome (List.range m) (initJob job_id url runs)).failed_submissions =
      (runSeq outcome (List.range m) (initJob job_id url runs)).completed_runs ∧
    (runSeq outcome (List.range m) (initJob job_id url runs)).completed_runs =
      (runSeq outcome (List.range m) (initJob job_id url runs)).results.length ∧
    (runSeq outcome (List.range m) (initJob job_id url runs)).completed_runs ≤
      (runSeq outcome (List.range m) (initJob job_id url runs)).total_runs ∧
    (run_batch_job outcome runs (initJob job_id url runs)).status = "completed" ∧
    (run_batch_job outcome runs (initJob job_id url runs)).completed_runs =
      (run_batch_job outcome runs (initJob job_id url runs)).total_runs := by
  have hmid := runSeq_counts outcome m 0 (initJob job_id url runs)
    rfl rfl rfl
  have hmidf := runSeq_fields outcome (List.range m) (initJob job_id url runs)
  have hfin := runSeq_counts outcome runs 0 (initJob job_id url runs)
    rfl rfl rfl
  have hfinf := runSeq_fields outcome (List.range runs) (initJob job_id url runs)
  rw [List.range_eq_range'] at hmidf hfinf
  refine ⟨?_, ?_, ?_, ?_, ?_⟩
  · rw [List.range_eq_range']
    omega
  · rw [List.range_eq_range']
    omega
  · rw [List.range_eq_range']
    have ht : (initJob job_id url runs).total_runs = runs := rfl
    omega
  · simp [run_batch_job]
  · simp only [run_batch_job]
    rw [List.range_eq_range']
    have ht : (initJob job_id url runs).total_runs = runs := rfl
    omega

/-- Witness for C7: a two-run batch whose runs both fail, inspected after
its first run. -/
theorem spec_C7_witness :
    (runSeq (fun _ => .error "boom") (List.range 1)
        (initJob "j" "u" 2)).successful_submissions +
      (runSeq (fun _ => .error "boom") (List.range 1)
        (initJob "j" "u" 2)).failed_submissions =
      (runSeq (fun _ => .error "boom") (List.range 1)
        (initJob "j" "u" 2)).completed_runs ∧
    (runSeq (fun _ => .error "boom") (List.range 1)
        (initJob "j" "u" 2)).completed_runs =
      (runSeq (fun _ => .error "boom") (List.range 1)
        (initJob "j" "u" 2)).results.length ∧
    (runSeq (fun _ => .error "boom") (List.range 1)
        (initJob "j" "u" 2)).completed_runs ≤
      (runSeq (fun _ => .error "boom") (List.range 1)
        (initJob "j" "u" 2)).total_runs ∧
    (run_batch_job (fun _ => .error "boom") 2 (initJob "j" "u" 2)).status =
      "completed" ∧
    (run_batch_job (fun _ => .error "boom") 2 (initJob "j" "u" 2)).completed_runs =
      (run_batch_job (fun _ => .error "boom") 2 (initJob "j" "u" 2)).total_runs :=
  spec_C7 (fun _ => .error "boom") 2 "j" "u" 1 (by decide)

/-- Auxiliary: every question produced by the extraction walk comes from
the item at its position, with the id recording that position. -/
theorem extractFrom_mem (items : List Item) :
    ∀ (k : Nat) (q : Question), q ∈ extractFrom k items →
      ∃ i item, items.get? i = some item ∧ extractOne (k + i) item = some q := by
  induction items with
  | nil =>
    intro k q h
    simp [extractFrom] at h
  | cons item rest ih =>
    intro k q h
    cases hx : extractOne k item with
    | some q0 =>
      rw [extractFrom, hx] at h
      rcases List.mem_cons.mp h with h | h
      · exact ⟨0, item, rfl, by simpa [h] using hx⟩
      · obtain ⟨i, it, hget, hone⟩ := ih (k + 1) q h
        refine ⟨i + 1, it, by simpa using hget, ?_⟩
        have harith : k + (i + 1) = (k + 1) + i := by omega
        rw [harith]
        exact hone
    | none =>
      rw [extractFrom, hx] at h
      obtain ⟨i, it, hget, hone⟩ := ih (k + 1) q h
      refine ⟨i + 1, it, by simpa using hget, ?_⟩
      have harith : k + (i + 1) = (k + 1) + i := by omega
      rw [harith]
      exact hone

/-- Auxiliary: the inferred input type is always one of the six values. -/
theorem questionTypeOf_cases (item : Item) :
    questionTypeOf item = "text" ∨ questionTypeOf item = "short_text" ∨
    questionTypeOf item = "long_text" ∨ questionTypeOf item = "mcq" ∨
    questionTypeOf item = "checkbox" ∨ questionTypeOf item = "scale_1_5" := by
  rcases item with ⟨hh, ti, ta, rad, cbs, num, ast, sdl⟩
  rcases le_or_lt 5 num with h5 | h5
  · have h5e : (5 ≤ num) = True := eq_true h5
    cases cbs <;> cases rad <;> cases ta <;> cases ti <;> simp [questionTypeOf, h5e]
  · have h5e : (5 ≤ num) = False := eq_false (Nat.not_le.mpr h5)
    cases cbs <;> cases rad <;> cases ta <;> cases ti <;> simp [questionTypeOf, h5e]

/-- Auxiliary: the collected option labels are empty exactly when the item
has neither radio nor checkbox elements. -/
theorem optionLabelsOf_empty_iff (item : Item) :
    optionLabelsOf item = [] ↔ item.radios = [] ∧ item.checkboxes = [] := by
  cases hc : item.checkboxes with
  | cons c cb => simp [optionLabelsOf, hc]
  | nil =>
    cases hr : item.radios with
    | nil => simp [optionLabelsOf, hc, hr]
    | cons r rs => simp [optionLabelsOf, hc, hr]

/-- Auxiliary: an item typed mcq carries exactly its radio labels. -/
theorem questionTypeOf_mcq_options (item : Item)
    (h : questionTypeOf item = "mcq") :
    optionLabelsOf item = item.radios := by
  rcases item with ⟨hh, ti, ta, rad, cbs, num, ast, sdl⟩
  rcases le_or_lt 5 num with h5 | h5
  · cases cbs <;> cases rad <;> cases ta <;> cases ti <;>
      simp [questionTypeOf, h5] at h
  · have h5f : ¬ 5 ≤ num := by omega
    cases cbs <;> cases rad <;> cases ta <;> cases ti <;>
      simp [questionTypeOf, h5f] at h <;> simp [optionLabelsOf]

/-- Auxiliary: an item typed checkbox carries exactly its checkbox labels. -/
theorem questionTypeOf_checkbox_options (item : Item)
    (h : questionTypeOf item = "checkbox") :
    optionLabelsOf item = item.checkboxes.map CheckboxEl.label := by
  rcases item with ⟨hh, ti, ta, rad, cbs, num, ast, sdl⟩
  rcases le_or_lt 5 num with h5 | h5
  · cases cbs <;> cases rad <;> cases ta <;> cases ti <;>
      simp [questionTypeOf, h5] at h
  · have h5f : ¬ 5 ≤ num := by omega
    cases cbs <;> cases rad <;> cases ta <;> cases ti <;>
      simp [questionTypeOf, h5f] at h <;> simp [optionLabelsOf]

/-- Counterexample to C4 as stated: a linear-scale item rendered (as
Google Forms renders one) with five radio points is typed scale_1_5 — not
a choice question — yet its options list keeps the five radio labels
instead of being empty. -/
theorem spec_C4_counterexample :
    extract_questions [scaleItem] =
      [{ id := 1, text := "Rate your experience *", type := "scale_1_5",
         options := [some "1", some "2", some "3", some "4", some "5"],
         required := true }] ∧
    ¬ ([some "1", some "2", some "3", some "4", some "5"] =
        ([] : List (Option String))) ∧
    ¬ ("scale_1_5" = "mcq") ∧ ¬ ("scale_1_5" = "checkbox") :=
  ⟨rfl, by decide, by decide, by decide⟩

/-- C4 as amended: every descriptor extract_questions returns carries the
five fields id / text / type / options / required; the type is one of the
six inferred input types; options holds the labels of the radio or
checkbox elements of the item whenever it has any — including a scale question
rendered with radio points — and is empty exactly when it has neither;
required is set iff the stripped heading contains an asterisk or the
required-asterisk element is present. -/
theorem spec_C4 (items : List Item) (q : Question)
    (hq : q ∈ extract_questions items) :
    (q.type = "text" ∨ q.type = "short_text" ∨ q.type = "long_text" ∨
     q.type = "mcq" ∨ q.type = "checkbox" ∨ q.type = "scale_1_5") ∧
    ∃ item, items.get? (q.id - 1) = some item ∧
      (∃ raw, item.heading = some raw ∧ q.text = pyStrip raw) ∧
      q.options = optionLabelsOf item ∧
      (q.options = [] ↔ item.radios = [] ∧ item.checkboxes = []) ∧
      (q.type = "mcq" → q.options = item.radios) ∧
      (q.type = "checkbox" → q.options = item.checkboxes.map CheckboxEl.label) ∧
      q.required = (pyIn "*" q.text || item.hasAsterisk) := by
  obtain ⟨i, item, hget, hone⟩ := extractFrom_mem items 1 q hq
  cases hh : item.heading with
  | none => rw [extractOne, hh] at hone; exact absurd hone (by simp)
  | some raw =>
    rw [extractOne, hh] at hone
    have hq2 : q =
        { id := 1 + i, text := pyStrip raw,
          type := questionTypeOf item, options := optionLabelsOf item,
          required := pyIn "*" (pyStrip raw) || item.hasAsterisk } := by
      simpa using hone.symm
    subst hq2
    refine ⟨questionTypeOf_cases item, item, ?_, ⟨raw, hh, rfl⟩, rfl,
      optionLabelsOf_empty_iff item,
      questionTypeOf_mcq_options item,
      questionTypeOf_checkbox_options item, rfl⟩
    simpa using hget

/-- Witness for the amended C4 at the concrete scale item. -/
theorem spec_C4_witness :
    (({ id := 1, text := "Rate your experience *", type := "scale_1_5",
        options := [some "1", some "2", some "3", some "4", some "5"],
        required := true } : Question).type = "text" ∨
     ({ id := 1, text := "Rate your experience *", type := "scale_1_5",
        options := [some "1", some "2", some "3", some "4", some "5"],
        required := true } : Question).type = "short_text" ∨
     ({ id := 1, text := "Rate your experience *", type := "scale_1_5",
        options := [some "1", some "2", some "3", some "4", some "5"],
        required := true } : Question).type = "long_text" ∨
     ({ id := 1, text := "Rate your experience *", type := "scale_1_5",
        options := [some "1", some "2", some "3", some "4", some "5"],
        required := true } : Question).type = "mcq" ∨
     ({ id := 1, text := "Rate your experience *", type := "scale_1_5",
        options := [some "1", some "2", some "3", some "4", some "5"],
        required := true } : Question).type = "checkbox" ∨
     ({ id := 1, text := "Rate your experience *", type := "scale_1_5",
        options := [some "1", some "2", some "3", some "4", some "5"],
        required := true } : Question).type = "scale_1_5") ∧
    ∃ item, [scaleItem].get?
        (({ id := 1, text := "Rate your experience *", type := "scale_1_5",
            options := [some "1", some "2", some "3", some "4", some "5"],
            required := true } : Question).id - 1) = some item ∧
      (∃ raw, item.heading = some raw ∧
        ({ id := 1, text := "Rate your experience *", type := "scale_1_5",
           options := [some "1", some "2", some "3", some "4", some "5"],
           required := true } : Question).text = pyStrip raw) ∧
      ({ id := 1, text := "Rate your experience *", type := "scale_1_5",
         options := [some "1", some "2", some "3", some "4", some "5"],
         required := true } : Question).options = optionLabelsOf item ∧
      (({ id := 1, text := "Rate your experience *", type := "scale_1_5",
          options := [some "1", some "2", some "3", some "4", some "5"],
          required := true } : Question).options = [] ↔
        item.radios = [] ∧ item.checkboxes = []) ∧
      (({ id := 1, text := "Rate your experience *", type := "scale_1_5",
          options := [some "1", some "2", some "3", some "4", some "5"],
          required := true } : Question).type = "mcq" →
        ({ id := 1, text := "Rate your experience *", type := "scale_1_5",
           options := [some "1", some "2", some "3", some "4", some "5"],
           required := true } : Question).options = item.radios) ∧
      (({ id := 1, text := "Rate your experience *", type := "scale_1_5",
          options := [some "1", some "2", some "3", some "4", some "5"],
          required := true } : Question).type = "checkbox" →
        ({ id := 1, text := "Rate your experience *", type := "scale_1_5",
           options := [some "1", some "2", some "3", some "4", some "5"],
           required := true } : Question).options =
          item.checkboxes.map CheckboxEl.label) ∧
      ({ id := 1, text := "Rate your experience *", type := "scale_1_5",
         options := [some "1", some "2", some "3", some "4", some "5"],
         required := true } : Question).required =
        (pyIn "*" ({ id := 1, text := "Rate your experience *",
                     type := "scale_1_5",
                     options := [some "1", some "2", some "3", some "4", some "5"],
                     required := true } : Question).text || item.hasAsterisk) :=
  spec_C4 [scaleItem] _ (by rw [spec_C4_counterexample.1]; exact List.mem_singleton.mpr rfl)

/-- Auxiliary: a successful radio scan returns a truthy label from the
list that satisfies the match condition. -/
theorem findRadioMatch_some (cond : String → Bool) :
    ∀ (opts : List (Option String)) (i j : Nat) (label : String),
    findRadioMatch cond i opts = some (j, label) →
    cond label = true ∧ label ≠ "" ∧ some label ∈ opts := by
  intro opts
  induction opts with
  | nil =>
    intro i j label h
    simp [findRadioMatch] at h
  | cons o rest ih =>
    intro i j label h
    cases o with
    | none =>
      rw [findRadioMatch] at h
      obtain ⟨h1, h2, h3⟩ := ih (i + 1) j label h
      exact ⟨h1, h2, by simp [h3]⟩
    | some l =>
      rw [findRadioMatch] at h
      by_cases hc : (!l.isEmpty && cond l) = true
      · rw [if_pos hc] at h
        obtain ⟨hne, hcl⟩ := Bool.and_eq_true_iff.mp hc
        have hl : l = label := by
          injection h with h2
          injection h2
        subst hl
        refine ⟨hcl, ?_, by simp⟩
        intro he
        rw [he] at hne
        exact absurd hne (by decide)
      · rw [if_neg hc] at h
        obtain ⟨h1, h2, h3⟩ := ih (i + 1) j label h
        exact ⟨h1, h2, by simp [h3]⟩

/-- Auxiliary: the radio scan succeeds whenever some truthy label in the
list satisfies the match condition. -/
theorem findRadioMatch_isSome (cond : String → Bool) :
    ∀ (opts : List (Option String)) (i : Nat) (label : String),
    some label ∈ opts → label ≠ "" → cond label = true →
    (findRadioMatch cond i opts).isSome = true := by
  intro opts
  induction opts with
  | nil =>
    intro i label hmem
    simp at hmem
  | cons o rest ih =>
    intro i label hmem hne hcond
    rcases List.mem_cons.mp hmem with heq | hmem2
    · rw [← heq, findRadioMatch]
      have hc : (!label.isEmpty && cond label) = true := by
        have : label.isEmpty = false := by
          rw [Bool.eq_false_iff]
          intro hx
          exact hne ((String.isEmpty_iff label).mp hx)
        simp [this, hcond]
      rw [if_pos hc]
      rfl
    · cases o with
      | none =>
        rw [findRadioMatch]
        exact ih (i + 1) label hmem2 hne hcond
      | some l =>
        rw [findRadioMatch]
        by_cases hc : (!l.isEmpty && cond l) = true
        · rw [if_pos hc]
          rfl
        · rw [if_neg hc]
          exact ih (i + 1) label hmem2 hne hcond

/-- Auxiliary: every action emitted by the checkbox loop clicks a
checkbox element at its position that is unchecked, truthy-labelled and
matching. -/
theorem checkboxActions_sound (qid : Nat) (chosen : List String) :
    ∀ (cbs : List CheckboxEl) (i : Nat) (act : FillAction),
    act ∈ checkboxActions qid chosen i cbs →
    ∃ t cb label, cbs.get? t = some cb ∧ cb.label = some label ∧
      label ≠ "" ∧ cb.checked = false ∧
      checkboxMatch chosen (pyStrip (pyLower label)) = true ∧
      act = .clickCheckbox qid (i + t) label := by
  intro cbs
  induction cbs with
  | nil =>
    intro i act h
    simp [checkboxActions] at h
  | cons cb rest ih =>
    intro i act h
    have hstep :
        ∀ h2 : act ∈ checkboxActions qid chosen (i + 1) rest,
        ∃ t cb2 label, (cb :: rest).get? t = some cb2 ∧
          cb2.label = some label ∧ label ≠ "" ∧ cb2.checked = false ∧
          checkboxMatch chosen (pyStrip (pyLower label)) = true ∧
          act = .clickCheckbox qid (i + t) label := by
      intro h2
      obtain ⟨t, cb2, label, g1, g2, g3, g4, g5, g6⟩ := ih (i + 1) act h2
      refine ⟨t + 1, cb2, label, by simpa using g1, g2, g3, g4, g5, ?_⟩
      have : i + (t + 1) = (i + 1) + t := by omega
      rw [this]
      exact g6
    simp only [checkboxActions] at h
    split at h
    next => exact hstep h
    next label hl2 =>
      by_cases he : label.isEmpty = true
      · rw [if_pos he] at h
        exact hstep h
      · rw [if_neg he] at h
        by_cases hm :
            (checkboxMatch chosen (pyStrip (pyLower label)) && !cb.checked) = true
        · rw [if_pos hm] at h
          rcases List.mem_cons.mp h with heq | h2
          · obtain ⟨hm1, hm2⟩ := Bool.and_eq_true_iff.mp hm
            refine ⟨0, cb, label, rfl, hl2, ?_, by simpa using hm2, hm1,
              by simpa using heq⟩
            intro hx
            rw [hx] at he
            exact he (by decide)
          · exact hstep h2
        · rw [if_neg hm] at h
          exact hstep h

/-- Auxiliary: the checkbox loop clicks every unchecked matching checkbox
with a truthy label. -/
theorem checkboxActions_complete (qid : Nat) (chosen : List String) :
    ∀ (cbs : List CheckboxEl) (i t : Nat) (cb : CheckboxEl) (label : String),
    cbs.get? t = some cb → cb.label = some label → label ≠ "" →
    checkboxMatch chosen (pyStrip (pyLower label)) = true →
    cb.checked = false →
    FillAction.clickCheckbox qid (i + t) label ∈ checkboxActions qid chosen i cbs := by
  intro cbs
  induction cbs with
  | nil =>
    intro i t cb label hget
    simp at hget
  | cons c rest ih =>
    intro i t cb label hget hl hne hm hchk
    cases t with
    | zero =>
      have hc : c = cb := by simpa using hget
      subst hc
      have he : label.isEmpty = false := by
        rw [Bool.eq_false_iff]
        intro hx
        exact hne ((String.isEmpty_iff label).mp hx)
      simp [checkboxActions, hl, he, hm, hchk]
    | succ t2 =>
      have hr := ih (i + 1) t2 cb label (by simpa using hget) hl hne hm hchk
      have harith : i + (t2 + 1) = (i + 1) + t2 := by omega
      rw [harith]
      simp only [checkboxActions]
      split
      · exact hr
      · split
        · exact hr
        · split
          · exact List.mem_cons_of_mem _ hr
          · exact hr

/-- C5: fill_page looks the answer of each question up by its id (string key),
locates the on-page control as items[id - 1], and sets it by input type:
free text is typed into the input or textarea; a single-choice answer
clicks exactly one radio, an exact lowered-and-stripped label match being
preferred over a substring match; a multi-choice answer is split on
commas and each matching checkbox is clicked only when not already
checked; a discrete-scale answer clicks the div whose aria-label equals
the stripped answer. -/
theorem spec_C5 (items : List Item) (answers : List (String × Json))
    (q : Question) (item : Item)
    (hget : items.get? (q.id - 1) = some item)
    (htruthy : (pyAnsOf answers q.id).pyTruthy = true) :
    fill_page items [q] answers = .ok (fillOne item q (pyAnsOf answers q.id)) ∧
    ((q.type = "short_text" ∨ q.type = "long_text") →
      (item.hasTextInput || item.hasTextarea) = true →
      fillOne item q (pyAnsOf answers q.id) =
        [.typeText q.id (pyAnsOf answers q.id).pyStr]) ∧
    (q.type = "mcq" →
      (∃ a, fillOne item q (pyAnsOf answers q.id) = [a]) ∧
      ((∃ l, some l ∈ item.radios ∧ l ≠ "" ∧
          pyStrip (pyLower l) = pyStrip (pyLower (pyAnsOf answers q.id).pyStr)) →
        ∃ i label, fillOne item q (pyAnsOf answers q.id) =
            [.clickRadio q.id i label true] ∧
          pyStrip (pyLower label) =
            pyStrip (pyLower (pyAnsOf answers q.id).pyStr)) ∧
      ((¬ ∃ l, some l ∈ item.radios ∧ l ≠ "" ∧
          pyStrip (pyLower l) = pyStrip (pyLower (pyAnsOf answers q.id).pyStr)) →
       (∃ l, some l ∈ item.radios ∧ l ≠ "" ∧
          pyIn (pyStrip (pyLower (pyAnsOf answers q.id).pyStr)) (pyLower l) = true) →
        ∃ i label, fillOne item q (pyAnsOf answers q.id) =
            [.clickRadio q.id i label false] ∧
          pyIn (pyStrip (pyLower (pyAnsOf answers q.id).pyStr))
            (pyLower label) = true)) ∧
    (q.type = "checkbox" →
      (∀ act ∈ fillOne item q (pyAnsOf answers q.id), ∃ t cb label,
        item.checkboxes.get? t = some cb ∧ cb.label = some label ∧
        cb.checked = false ∧
        checkboxMatch (chosenOf (pyAnsOf answers q.id).pyStr)
          (pyStrip (pyLower label)) = true ∧
        act = .clickCheckbox q.id t label) ∧
      (∀ t cb label, item.checkboxes.get? t = some cb →
        cb.label = some label → label ≠ "" →
        checkboxMatch (chosenOf (pyAnsOf answers q.id).pyStr)
          (pyStrip (pyLower label)) = true → cb.checked = false →
        FillAction.clickCheckbox q.id t label ∈
          fillOne item q (pyAnsOf answers q.id))) ∧
    (q.type = "scale_1_5" →
      pyStrip (pyAnsOf answers q.id).pyStr ∈ item.scaleDivLabels →
      fillOne item q (pyAnsOf answers q.id) =
        [.clickScale q.id (pyStrip (pyAnsOf answers q.id).pyStr)]) := by
  have hget2 : items[q.id - 1]? = some item := by
    rw [← List.get?_eq_getElem?]
    exact hget
  have hfq : fillQuestion items answers q =
      .ok (fillOne item q (pyAnsOf answers q.id)) := by
    simp [fillQuestion, htruthy, hget2]
  refine ⟨?_, ?_, ?_, ?_, ?_⟩
  · simp only [fill_page, List.foldl]
    rw [hfq]
    rfl
  · intro htype hinput
    rcases htype with h | h <;> simp [fillOne, h, hinput]
  · intro hmcq
    have hfe : findExactRadio item.radios
        (pyStrip (pyLower (pyAnsOf answers q.id).pyStr)) =
      findRadioMatch
        (fun l => pyStrip (pyLower l) ==
          pyStrip (pyLower (pyAnsOf answers q.id).pyStr)) 0 item.radios := rfl
    have hfs : findSubRadio item.radios
        (pyStrip (pyLower (pyAnsOf answers q.id).pyStr)) =
      findRadioMatch
        (fun l => pyIn (pyStrip (pyLower (pyAnsOf answers q.id).pyStr))
          (pyLower l)) 0 item.radios := rfl
    refine ⟨?_, ?_, ?_⟩
    · cases hx : findExactRadio item.radios
          (pyStrip (pyLower (pyAnsOf answers q.id).pyStr)) with
      | some p =>
        obtain ⟨i, label⟩ := p
        exact ⟨.clickRadio q.id i label true, by simp [fillOne, hmcq, hx]⟩
      | none =>
        cases hy : findSubRadio item.radios
            (pyStrip (pyLower (pyAnsOf answers q.id).pyStr)) with
        | some p =>
          obtain ⟨i, label⟩ := p
          exact ⟨.clickRadio q.id i label false, by simp [fillOne, hmcq, hx, hy]⟩
        | none => exact ⟨.noRadioMatch q.id, by simp [fillOne, hmcq, hx, hy]⟩
    · rintro ⟨l, hmem, hne, heq⟩
      have hsome := findRadioMatch_isSome
        (fun l => pyStrip (pyLower l) ==
          pyStrip (pyLower (pyAnsOf answers q.id).pyStr))
        item.radios 0 l hmem hne (by simp [heq])
      rw [← hfe] at hsome
      obtain ⟨p, hx⟩ := Option.isSome_iff_exists.mp hsome
      obtain ⟨i, label⟩ := p
      obtain ⟨hcond, hne2, hmem2⟩ := findRadioMatch_some _ item.radios 0 i label
        (hfe ▸ hx)
      refine ⟨i, label, by simp [fillOne, hmcq, hx], ?_⟩
      simpa using hcond
    · intro hnoexact hsub
      have hx : findExactRadio item.radios
          (pyStrip (pyLower (pyAnsOf answers q.id).pyStr)) = none := by
        cases hfe2 : findExactRadio item.radios
            (pyStrip (pyLower (pyAnsOf answers q.id).pyStr)) with
        | none => rfl
        | some p =>
          obtain ⟨i, label⟩ := p
          obtain ⟨hcond, hne2, hmem2⟩ := findRadioMatch_some _ item.radios 0 i
            label (hfe ▸ hfe2)
          exact absurd ⟨label, hmem2, hne2, by simpa using hcond⟩ hnoexact
      obtain ⟨l, hmem, hne, hin⟩ := hsub
      have hsome := findRadioMatch_isSome
        (fun l => pyIn (pyStrip (pyLower (pyAnsOf answers q.id).pyStr))
          (pyLower l)) item.radios 0 l hmem hne hin
      rw [← hfs] at hsome
      obtain ⟨p, hy⟩ := Option.isSome_iff_exists.mp hsome
      obtain ⟨i, label⟩ := p
      obtain ⟨hcond, hne2, hmem2⟩ := findRadioMatch_some _ item.radios 0 i label
        (hfs ▸ hy)
      exact ⟨i, label, by simp [fillOne, hmcq, hx, hy], hcond⟩
  · intro hcb
    have hone : fillOne item q (pyAnsOf answers q.id) =
        checkboxActions q.id (chosenOf (pyAnsOf answers q.id).pyStr) 0
          item.checkboxes := by
      simp [fillOne, hcb]
    constructor
    · intro act hact
      rw [hone] at hact
      obtain ⟨t, cb, label, g1, g2, g3, g4, g5, g6⟩ :=
        checkboxActions_sound q.id _ item.checkboxes 0 act hact
      exact ⟨t, cb, label, g1, g2, g4, g5, by simpa using g6⟩
    · intro t cb label hg hlab hne hm hchk
      rw [hone]
      have := checkboxActions_complete q.id _ item.checkboxes 0 t cb label hg
        hlab hne hm hchk
      simpa using this
  · intro hsc hmem
    have hany : item.scaleDivLabels.any
        (· == pyStrip (pyAnsOf answers q.id).pyStr) = true := by
      simp only [List.any_eq_true]
      exact ⟨_, hmem, by simp⟩
    simp [fillOne, hsc, hany]

/-- Witness for C5: an mcq question answered with the label of its second
option. -/
theorem spec_C5_witness :
    fill_page [mcqItem]
        [{ id := 1, text := "Favourite colour", type := "mcq",
           options := [some "Red", some "Blue"], required := false }]
        [("1", Json.str "Blue")] =
      .ok (fillOne mcqItem
        { id := 1, text := "Favourite colour", type := "mcq",
          options := [some "Red", some "Blue"], required := false }
        (pyAnsOf [("1", Json.str "Blue")] 1)) :=
  (spec_C5 [mcqItem] [("1", Json.str "Blue")]
    { id := 1, text := "Favourite colour", type := "mcq",
      options := [some "Red", some "Blue"], required := false }
    mcqItem rfl rfl).1

/-- Auxiliary: the qstring accumulation loop factors through any start value. -/
theorem buildQString_foldl (qs : List Question) :
    ∀ acc : String,
    List.foldl (fun a q => a ++ qLine q) acc qs = acc ++ buildQString qs := by
  induction qs with
  | nil =>
    intro acc
    simp [buildQString]
  | cons q rest ih =>
    intro acc
    show List.foldl (fun a q => a ++ qLine q) (acc ++ qLine q) rest =
      acc ++ buildQString (q :: rest)
    rw [ih (acc ++ qLine q)]
    have hc : buildQString (q :: rest) = qLine q ++ buildQString rest := by
      show List.foldl (fun a q => a ++ qLine q) ("" ++ qLine q) rest = _
      rw [ih ("" ++ qLine q), String.empty_append]
    rw [hc, String.append_assoc]

/-- Auxiliary: qLine of the head splits off the front of the qstring. -/
theorem buildQString_cons (q : Question) (qs : List Question) :
    buildQString (q :: qs) = qLine q ++ buildQString qs := by
  show List.foldl (fun a q => a ++ qLine q) ("" ++ qLine q) qs = _
  rw [buildQString_foldl, String.empty_append]

/-- Auxiliary: the qstring of a concatenation is the concatenation of the
qstrings. -/
theorem buildQString_append (l r : List Question) :
    buildQString (l ++ r) = buildQString l ++ buildQString r := by
  show List.foldl (fun a q => a ++ qLine q) "" (l ++ r) = _
  rw [List.foldl_append, buildQString_foldl]
  rfl

/-- C3: get_ai_answers_batch makes exactly one chat-completion call whose
prompt contains one line per question (id, text, required marker, type
and options), and returns the markdown-stripped reply parsed as JSON — a
mapping from question id string to answer value — raising instead of
returning when the reply does not parse as JSON. -/
theorem spec_C3 (respond : String → String) (seed : Nat) (qs : List Question) :
    (get_ai_answers_batch respond seed qs).calls = [strictPrompt seed qs] ∧
    (∀ q ∈ qs, ∃ pre post, strictPrompt seed qs = pre ++ qLine q ++ post) ∧
    (∀ j, jsonLoads (stripModelContent (respond (strictPrompt seed qs))) = some j →
      (get_ai_answers_batch respond seed qs).result = .ok j) ∧
    (jsonLoads (stripModelContent (respond (strictPrompt seed qs))) = none →
      ∃ e, (get_ai_answers_batch respond seed qs).result = .error e) := by
  refine ⟨?_, ?_, ?_, ?_⟩
  · cases h : jsonLoads (stripModelContent (respond (strictPrompt seed qs))) <;>
      simp [get_ai_answers_batch, h]
  · intro q hq
    obtain ⟨s, t, hst⟩ := List.append_of_mem hq
    subst hst
    refine ⟨promptPartA ++ toString seed ++ promptPartB ++ buildQString s,
            buildQString t ++ promptPartC, ?_⟩
    simp only [strictPrompt, buildQString_append, buildQString_cons,
      String.append_assoc]
  · intro j h
    simp [get_ai_answers_batch, h]
  · intro h
    exact ⟨"invalid JSON: " ++ stripModelContent (respond (strictPrompt seed qs)),
           by simp [get_ai_answers_batch, h]⟩

/-- Witness for C3: a reply that is a clean JSON object parses into the
returned mapping. -/
theorem spec_C3_witness :
    (get_ai_answers_batch (fun _ => "\x7b\"1\": \"Asha\"\x7d") 3
        [{ id := 1, text := "Name", type := "short_text", options := [],
           required := false }]).result =
      .ok (.obj [("1", .str "Asha")]) :=
  (spec_C3 (fun _ => "\x7b\"1\": \"Asha\"\x7d") 3
    [{ id := 1, text := "Name", type := "short_text", options := [],
       required := false }]).2.2.1 (.obj [("1", .str "Asha")]) rfl

/-- Auxiliary: whatever page the Submit attempt sees, it always ends the
loop returning first_page_answers. -/
theorem submitBreak_result (pre : List Ev) (pageNum : Nat)
    (view : Option Page) (collected firstP : List (String × Json)) :
    (submitBreak pre pageNum view collected firstP).result = .ok firstP := by
  cases view with
  | none => rfl
  | some p => by_cases hs : p.hasSubmit <;> simp [submitBreak, hs]

/-- Auxiliary: from any page number on, the trace of the loop respects
the faithful fall-through ordering. -/
theorem fillFormLoop_trace (responds : Nat → String → String) (seed : Nat) :
    ∀ (pages : List Page) (k : Nat) (collected firstP : List (String × Json)),
    orderedTraceFall k
      (fillFormLoop responds seed pages k collected firstP).trace = true := by
  intro pages
  induction pages with
  | nil =>
    intro k collected firstP
    simp [fillFormLoop, orderedTraceFall]
  | cons page rest ih =>
    intro k collected firstP
    simp only [fillFormLoop]
    cases hai : (get_ai_answers_batch (responds k) seed
        (extract_questions page.items)).result with
    | error e => simp [hai, orderedTraceFall]
    | ok parsed =>
      cases parsed with
      | obj answers =>
        cases hfp : fill_page page.items (extract_questions page.items)
            answers with
        | error e => simp [hai, hfp, orderedTraceFall]
        | ok acts =>
          cases hn : page.next with
          | advanced => simp [hai, hfp, hn, orderedTraceFall, ih]
          | absent =>
            by_cases hs : page.hasSubmit <;>
              simp [hai, hfp, hn, hs, submitBreak, orderedTraceFall]
          | failedStay =>
            by_cases hs : page.hasSubmit <;>
              simp [hai, hfp, hn, hs, submitBreak, orderedTraceFall]
          | failedMoved =>
            cases rest with
            | nil => simp [hai, hfp, hn, submitBreak, orderedTraceFall]
            | cons p2 rest2 =>
              by_cases hs : p2.hasSubmit <;>
                simp [hai, hfp, hn, hs, submitBreak, orderedTraceFall]
      | null => simp [hai, orderedTraceFall]
      | bool b => simp [hai, orderedTraceFall]
      | num n => simp [hai, orderedTraceFall]
      | str s => simp [hai, orderedTraceFall]
      | arr xs => simp [hai, orderedTraceFall]

/-- Counterexample to C1 as stated: on a form whose first Next click
navigates while its staleness wait times out, the bare except falls
through to the Submit attempt of the same iteration, so the run clicks
Next and then Submit, submits page 2 without ever extracting it, and its
trace violates the single-advance-or-submit order the claim describes. -/
theorem spec_C1_counterexample :
    (fill_form wResp 3 racePages).trace =
      [Ev.extract 1, Ev.synthesize 1, Ev.fillPage 1, Ev.checkValidation 1,
       Ev.clickNext 1, Ev.clickSubmit 1] ∧
    orderedTrace 1 (fill_form wResp 3 racePages).trace = false ∧
    Ev.extract 2 ∉ (fill_form wResp 3 racePages).trace :=
  ⟨rfl, rfl, by decide⟩

/-- C1 as amended: every fill_form run walks the pages in order; each
iteration extracts, makes the single synthesize call, fills and checks
validation before it clicks anything; it then attempts Next, and when the
click together with its staleness wait succeeds the loop repeats on the
next page — otherwise (no Next button, or the guarded click or wait
failed, the browser possibly having already moved to a page that is never
extracted or filled) the iteration falls through to a Submit attempt, so
a single iteration may click Next and then Submit, and the run ends. -/
theorem spec_C1 (responds : Nat → String → String) (seed : Nat)
    (pages : List Page) :
    orderedTraceFall 1 (fill_form responds seed pages).trace = true :=
  fillFormLoop_trace responds seed pages 1 [] []

/-- Auxiliary: from page 2 on, first_page_answers is never reassigned, so
a normal return yields it unchanged. -/
theorem fillFormLoop_result_late (responds : Nat → String → String)
    (seed : Nat) :
    ∀ (pages : List Page) (k : Nat) (collected firstP : List (String × Json)),
    2 ≤ k → ∀ r,
    (fillFormLoop responds seed pages k collected firstP).result = .ok r →
    r = firstP := by
  intro pages
  induction pages with
  | nil =>
    intro k c f hk r h
    simp [fillFormLoop] at h
  | cons page rest ih =>
    intro k c f hk r h
    simp only [fillFormLoop] at h
    cases hai : (get_ai_answers_batch (responds k) seed
        (extract_questions page.items)).result with
    | error e => simp [hai] at h
    | ok parsed =>
      cases parsed with
      | obj answers =>
        have hk1 : (k == 1) = false := by
          simp only [beq_eq_false_iff_ne, ne_eq]
          omega
        cases hfp : fill_page page.items (extract_questions page.items)
            answers with
        | error e => simp [hai, hfp] at h
        | ok acts =>
          cases hn : page.next with
          | advanced =>
            simp only [hai, hfp, hk1, hn, Bool.false_eq_true, ite_false] at h
            exact ih (k + 1) _ f (by omega) r h
          | absent =>
            simp [hai, hfp, hk1, hn, submitBreak_result] at h
            exact h.symm
          | failedStay =>
            simp [hai, hfp, hk1, hn, submitBreak_result] at h
            exact h.symm
          | failedMoved =>
            simp [hai, hfp, hk1, hn, submitBreak_result] at h
            exact h.symm
      | null => simp [hai] at h
      | bool b => simp [hai] at h
      | num n => simp [hai] at h
      | str s => simp [hai] at h
      | arr xs => simp [hai] at h

/-- C10: whenever a fill_form run over a multi-page form returns normally,
the returned mapping is exactly the answers synthesized for page 1 —
answers for later pages, although merged into collected_answers, are
never part of the return value. -/
theorem spec_C10 (responds : Nat → String → String) (seed : Nat)
    (page1 : Page) (rest : List Page) (a1 : List (String × Json))
    (h1 : (get_ai_answers_batch (responds 1) seed
      (extract_questions page1.items)).result = .ok (.obj a1)) :
    ∀ r, (fill_form responds seed (page1 :: rest)).result = .ok r → r = a1 := by
  intro r h
  simp only [fill_form, fillFormLoop] at h
  cases hfp : fill_page page1.items (extract_questions page1.items) a1 with
  | error e => simp [h1, hfp] at h
  | ok acts =>
    cases hn : page1.next with
    | advanced =>
      simp only [h1, hfp, hn] at h
      simp only [beq_self_eq_true, ite_true] at h
      exact fillFormLoop_result_late responds seed rest 2 _ a1 (by omega) r h
    | absent =>
      simp [h1, hfp, hn, submitBreak_result] at h
      exact h.symm
    | failedStay =>
      simp [h1, hfp, hn, submitBreak_result] at h
      exact h.symm
    | failedMoved =>
      simp [h1, hfp, hn, submitBreak_result] at h
      exact h.symm

/-- Witness for C10: a two-page run where the answers of page 2 reach
collected_answers but the returned value is the mapping of page 1 alone. -/
theorem spec_C10_witness :
    (fill_form wResp 3 wPages).result = .ok [("1", Json.str "Asha")] ∧
    (fill_form wResp 3 wPages).collected =
      [("1", Json.str "Delhi"), ("2", Json.str "X")] ∧
    ([("1", Json.str "Asha")] : List (String × Json)) =
      [("1", Json.str "Asha")] := by
  refine ⟨rfl, rfl, ?_⟩
  exact spec_C10 wResp 3
    { items := [textItem "Name"], alerts := [], next := .advanced,
      hasSubmit := false, submitChangesUrl := false }
    [{ items := [textItem "City", textItem "Hobby"], alerts := [],
       next := .absent, hasSubmit := true, submitChangesUrl := true }]
    [("1", Json.str "Asha")] rfl [("1", Json.str "Asha")] rfl

example : jsonLoads "\x7b\"1\": \"hi\", \"2\": 4\x7d" =
    some (.obj [("1", .str "hi"), ("2", .num 4)]) := rfl

example : jsonLoads "not json" = none := rfl

example : stripModelContent " ```json\n\x7b\"1\": \"a\"\x7d\n``` " =
    "\x7b\"1\": \"a\"\x7d" := rfl
